import Mathlib

/-!
A shallow embedding of the server-side session and state-management
subsystem of the Rust-Quiz-App repository (src/server/state.rs,
src/server/server.rs, src/server/commands.rs, src/protocol/messages.rs),
together with theorems settling a list of claims about it.

Modelling conventions:
* Rust usize becomes Nat (all arithmetic here is small and never wraps;
  the only operations are increment and comparisons).
* Uuid session ids and mpsc sender channels are opaque handles, modelled
  as Nat.
* IpAddr is an opaque value, modelled as Nat; the textual parse used by
  the unban command is modelled by String.toNat?.
* Instant timestamps are modelled as Nat; Instant.now is modelled by an
  explicit clock argument threaded to the handlers that call it.
* HashMap and HashSet become association lists / lists.  The iteration
  order of a Rust HashMap is unspecified; in this model the list order
  plays that role, so facts that hold for every list order are facts
  about the program, and two lists that are permutations of each other
  represent the same map.
* Sending on a session channel is modelled as emitting a
  (channel, message) pair; a session whose sender is none emits nothing
  (matching UnboundedSender being absent).  Handlers return the new
  state together with the list of emitted messages, in emission order.
* Vec::sort_by is a stable sort; it is modelled by List.insertionSort
  (also stable), which produces the identical output for the total
  preorder used by generate_leaderboard.
* Rust str::len counts UTF-8 bytes; String.length counts characters.
  They agree on ASCII, and nothing here depends on the difference.
-/

namespace RustQuiz

/-- ServerStatus from state.rs. -/
inductive ServerStatus
  | Lobby
  | InProgress
  | Finished
  deriving DecidableEq, Repr

/-- UserStatus from state.rs. -/
inductive UserStatus
  | Connected
  | InLobby
  | Answering (i : Nat)
  | Finished
  | Disconnected
  deriving DecidableEq, Repr

/-- ServerView from state.rs (host display focus). -/
inductive ServerView
  | Lobby
  | Analytics
  | UserDetail (username : String)
  | Help
  deriving DecidableEq, Repr

/-- Question from models/question.rs: text, optional code snippet,
4 option strings (modelled as a list), correct option index. -/
structure Question where
  text : String
  code : Option String
  options : List String
  correct_answer : Nat
  deriving DecidableEq, Repr

/-- AnswerResult from protocol/messages.rs. -/
structure AnswerResult where
  question_index : Nat
  question_text : String
  your_answer : Nat
  correct_answer : Nat
  is_correct : Bool
  options : List String
  deriving DecidableEq, Repr

/-- LeaderboardEntry from protocol/messages.rs. -/
structure LeaderboardEntry where
  rank : Nat
  username : String
  score : Nat
  total : Nat
  is_you : Bool
  deriving DecidableEq, Repr

/-- ServerMessage from protocol/messages.rs. -/
inductive ServerMessage
  | ConnectionAck
  | JoinAccepted (username : String)
  | JoinRejected (reason : String)
  | ReconnectAccepted (username : String) (current_question : Nat)
  | QuizStart (total_questions : Nat)
  | Question (index : Nat) (text : String) (code : Option String)
      (options : List String)
  | QuizResults (score : Nat) (total : Nat) (answers : List AnswerResult)
      (leaderboard : List LeaderboardEntry)
  | Kicked (reason : String)
  | HostEndedQuiz
  | ServerClosing
  deriving DecidableEq, Repr

/-- UserSession from state.rs.  The id models the Uuid, ip_addr the
IpAddr, finished_at the Option Instant, sender the optional
UnboundedSender (as an opaque channel handle). -/
structure UserSession where
  id : Nat
  username : Option String
  ip_addr : Nat
  status : UserStatus
  answers : List (Option Nat)
  score : Option Nat
  finished_at : Option Nat
  sender : Option Nat
  deriving DecidableEq, Repr

/-- LiveAnswer from state.rs. -/
structure LiveAnswer where
  username : String
  question_index : Nat
  answer : Nat
  timestamp : Nat
  deriving DecidableEq, Repr

/-- ServerState from state.rs.  sessions, username_to_id and ip_to_id
are association lists standing for HashMaps (keys unique, iteration
order unspecified); banned_ips is a list standing for a HashSet.
The TUI-only field command_input is omitted (nothing modelled here
reads or writes it). -/
structure ServerState where
  status : ServerStatus
  questions : List Question
  sessions : List (Nat × UserSession)
  username_to_id : List (String × Nat)
  ip_to_id : List (Nat × Nat)
  banned_ips : List Nat
  current_view : ServerView
  command_history : List String
  live_answers : List LiveAnswer
  should_quit : Bool
  port : Nat
  deriving DecidableEq, Repr

/-- Update every entry of an association list whose key equals k by f
(keys are unique in any list standing for a HashMap, so this models the
in-place update done through HashMap::get_mut). -/
def mapUpdate (k : Nat) (f : UserSession → UserSession) :
    List (Nat × UserSession) → List (Nat × UserSession)
  | [] => []
  | p :: t => (if p.1 == k then (p.1, f p.2) else p) :: mapUpdate k f t

/-- UserSession::new from state.rs (the fresh Uuid is passed in). -/
def UserSession.new (fresh ip ch : Nat) : UserSession where
  id := fresh
  username := none
  ip_addr := ip
  status := .Connected
  answers := []
  score := none
  finished_at := none
  sender := some ch

/-- UserSession::init_answers from state.rs. -/
def UserSession.init_answers (sess : UserSession) (num_questions : Nat) :
    UserSession :=
  { sess with answers := List.replicate num_questions none }

/-- UserSession::current_question_index from state.rs: the count of
contiguous answered slots from the start of the answers vector. -/
def UserSession.current_question_index (sess : UserSession) : Nat :=
  (sess.answers.takeWhile Option.isSome).length

/-- UserSession::is_finished from state.rs. -/
def UserSession.is_finished (sess : UserSession) : Bool :=
  sess.status = UserStatus.Finished

/-- UserSession::is_connected from state.rs. -/
def UserSession.is_connected (sess : UserSession) : Bool :=
  sess.sender.isSome && !(sess.status = UserStatus.Disconnected)

/-- UserSession::send from state.rs, as an emission: a (channel,
message) pair when the sender channel is present, nothing otherwise. -/
def UserSession.sendTo (sess : UserSession) (msg : ServerMessage) :
    List (Nat × ServerMessage) :=
  match sess.sender with
  | some ch => [(ch, msg)]
  | none => []

/-- UserSession::calculate_score from state.rs: zip answers with
questions and count the slots whose stored answer equals that
question's correct index. -/
def UserSession.calculate_score (sess : UserSession)
    (questions : List Question) : Nat :=
  ((sess.answers.zip questions).filter
    (fun p => p.1 == some p.2.correct_answer)).length

/-- UserSession::answered_count from state.rs. -/
def UserSession.answered_count (sess : UserSession) : Nat :=
  (sess.answers.filter Option.isSome).length

/-- ServerState::named_user_count from state.rs. -/
def ServerState.named_user_count (s : ServerState) : Nat :=
  ((s.sessions.map Prod.snd).filter (fun sess => sess.username.isSome)).length

/-- ServerState::is_username_taken from state.rs. -/
def ServerState.is_username_taken (s : ServerState) (username : String) :
    Bool :=
  (s.username_to_id.lookup username).isSome

/-- ServerState::record_live_answer from state.rs (keeps only the most
recent 50 entries, FIFO eviction; the timestamp argument models
Instant::now at the call). -/
def ServerState.record_live_answer (s : ServerState) (username : String)
    (question_index answer now : Nat) : ServerState :=
  let pushed := s.live_answers ++
    [{ username := username, question_index := question_index,
       answer := answer, timestamp := now }]
  { s with live_answers := if pushed.length > 50 then pushed.drop 1 else pushed }

/-- ServerState::add_to_history from state.rs (keeps only the last 100
messages, FIFO eviction). -/
def ServerState.add_to_history (s : ServerState) (msg : String) :
    ServerState :=
  let pushed := s.command_history ++ [msg]
  { s with command_history :=
      if pushed.length > 100 then pushed.drop 1 else pushed }

/-- The comparator of ServerState::generate_leaderboard, as a
non-strict order: lbLe a b holds when the Rust comparator does not
return Greater on (a, b), i.e. score descending, ties by finished_at
ascending (Option ordered with None first, matching Option Instant). -/
def optTimeLe : Option Nat → Option Nat → Bool
  | none, _ => true
  | some _, none => false
  | some a, some b => a ≤ b

/-- lbLe a b: a may come no later than b in the sorted leaderboard. -/
def lbLe (a b : UserSession) : Bool :=
  b.score.getD 0 < a.score.getD 0 ||
    (a.score.getD 0 == b.score.getD 0 && optTimeLe a.finished_at b.finished_at)

/-- The filter of generate_leaderboard: sessions that are Finished and
have a username, in session-map iteration order. -/
def ServerState.finishedNamed (s : ServerState) : List UserSession :=
  (s.sessions.map Prod.snd).filter
    (fun sess => sess.is_finished && sess.username.isSome)

/-- The sorted session list inside generate_leaderboard: a stable sort
of finishedNamed by lbLe (Vec::sort_by is stable; a stable insertion
sort yields the identical list for this total preorder). -/
def ServerState.leaderboardSessions (s : ServerState) : List UserSession :=
  List.insertionSort (fun a b => lbLe a b = true) s.finishedNamed

/-- ServerState::generate_leaderboard from state.rs. -/
def ServerState.generate_leaderboard (s : ServerState)
    (requesting_username : String) : List LeaderboardEntry :=
  s.leaderboardSessions.enum.map (fun p =>
    { rank := p.1 + 1
      username := p.2.username.getD ""
      score := p.2.score.getD 0
      total := s.questions.length
      is_you := p.2.username == some requesting_username })

/-- The answer-result list built (identically) in handle_answer
(server.rs) and cmd_stop (commands.rs): one AnswerResult per answered
slot that has a matching question. -/
def answerResults (answers : List (Option Nat)) (questions : List Question) :
    List AnswerResult :=
  (answers.enum.filterMap (fun p =>
    match questions[p.1]?, p.2 with
    | some q, some your_answer =>
        some { question_index := p.1
               question_text := q.text
               your_answer := your_answer
               correct_answer := q.correct_answer
               is_correct := your_answer == q.correct_answer
               options := q.options }
    | _, _ => none))

/-- ServerState::broadcast from state.rs: emit to every session with a
username and an active connection, in session-map iteration order. -/
def ServerState.broadcast (s : ServerState) (msg : ServerMessage) :
    List (Nat × ServerMessage) :=
  s.sessions.flatMap (fun p =>
    if p.2.username.isSome && p.2.is_connected then p.2.sendTo msg else [])

/-- ServerState::broadcast_all from state.rs. -/
def ServerState.broadcast_all (s : ServerState) (msg : ServerMessage) :
    List (Nat × ServerMessage) :=
  s.sessions.flatMap (fun p =>
    if p.2.is_connected then p.2.sendTo msg else [])

/-- str::trim: strip leading and trailing whitespace.  Defined on the
character list rather than through String.trim, whose Substring
auxiliaries the kernel cannot reduce; the semantics is the same. -/
def strTrim (s : String) : String :=
  String.mk (((s.data.dropWhile Char.isWhitespace).reverse.dropWhile
    Char.isWhitespace).reverse)

/-- str::to_lowercase, character by character (String.toLower itself
is defined through an auxiliary the kernel cannot reduce). -/
def strToLower (s : String) : String :=
  String.mk (s.data.map Char.toLower)

/-- validate_username from protocol/messages.rs. -/
def validate_username (username : String) : Except String Unit :=
  let trimmed := strTrim username
  if trimmed.length < 3 then
    Except.error "Username must be at least 3 characters"
  else if trimmed.length > 16 then
    Except.error "Username must be at most 16 characters"
  else
    Except.ok ()

/-- ServerState::get_user_by_name from state.rs. -/
def ServerState.get_user_by_name (s : ServerState) (username : String) :
    Option UserSession :=
  (s.username_to_id.lookup username).bind (fun id => s.sessions.lookup id)

/-- HashMap::insert on an association list: replace the value of an
existing key, otherwise append the new entry. -/
def assocInsert {κ : Type} [BEq κ] (k : κ) (v : Nat) (l : List (κ × Nat)) :
    List (κ × Nat) :=
  if (l.lookup k).isSome then
    l.map (fun p => if p.1 == k then (k, v) else p)
  else
    l ++ [(k, v)]

/-- handle_join from server.rs (lines 256-316): trim, validate length,
reject taken names, otherwise bind the username and set the status
(late joiners get a full answer list, Answering 0, and the question at
index 0). -/
def handle_join (session_id : Nat) (raw : String) (s : ServerState) :
    ServerState × List (Nat × ServerMessage) :=
  let username := strTrim raw
  match validate_username username with
  | Except.error reason =>
    match s.sessions.lookup session_id with
    | some sess => (s, sess.sendTo (.JoinRejected reason))
    | none => (s, [])
  | Except.ok _ =>
    if s.is_username_taken username then
      match s.sessions.lookup session_id with
      | some sess => (s, sess.sendTo (.JoinRejected "Username is already taken"))
      | none => (s, [])
    else
      match s.sessions.lookup session_id with
      | none => (s, [])
      | some sess =>
        let s1 := { s with
          username_to_id := assocInsert username session_id s.username_to_id }
        let base := { sess with username := some username }
        if s.status = ServerStatus.InProgress then
          let sess1 := { (base.init_answers s.questions.length) with
                         status := UserStatus.Answering 0 }
          let msgs := sess1.sendTo (.JoinAccepted username) ++
            sess1.sendTo (.QuizStart s.questions.length) ++
            (match s.questions.head? with
             | some q => sess1.sendTo (.Question 0 q.text q.code q.options)
             | none => [])
          let s2 := { s1 with
            sessions := mapUpdate session_id (fun _ => sess1) s1.sessions }
          (s2.add_to_history ("User " ++ username ++ " joined (late)"), msgs)
        else
          let sess1 := { base with status := UserStatus.InLobby }
          let msgs := sess1.sendTo (.JoinAccepted username)
          let s2 := { s1 with
            sessions := mapUpdate session_id (fun _ => sess1) s1.sessions }
          (s2.add_to_history ("User " ++ username ++ " joined"), msgs)

/-- handle_answer from server.rs (lines 319-427).  The now argument
models Instant::now at this call (finish stamp and live-feed stamp). -/
def handle_answer (session_id question_index answer now : Nat)
    (s : ServerState) : ServerState × List (Nat × ServerMessage) :=
  let questions_len := s.questions.length
  let questions := s.questions
  let username := (s.sessions.lookup session_id).bind (fun sess => sess.username)
  match s.sessions.lookup session_id with
  | none => (s, [])
  | some sess =>
    if question_index ≠ sess.current_question_index then (s, [])
    else
      let sess1 := if question_index < sess.answers.length then
          { sess with answers := sess.answers.set question_index (some answer) }
        else sess
      let next_index := question_index + 1
      if questions_len ≤ next_index then
        let sess2 := { sess1 with
          status := UserStatus.Finished
          finished_at := some now
          score := some (sess1.calculate_score questions) }
        let score := sess2.score.getD 0
        let username_for_results := sess2.username.getD ""
        let results := answerResults sess2.answers questions
        let s1 := { s with
          sessions := mapUpdate session_id (fun _ => sess2) s.sessions }
        let s2 := match username with
          | some u => s1.record_live_answer u question_index answer now
          | none => s1
        let leaderboard := s2.generate_leaderboard username_for_results
        let msgs := match s2.sessions.lookup session_id with
          | some se =>
              se.sendTo (.QuizResults score questions_len results leaderboard)
          | none => []
        let s3 := s2.add_to_history ("User " ++ username_for_results ++
          " finished with score " ++ toString score ++ "/" ++
          toString questions_len)
        (s3, msgs)
      else
        let sess2 := { sess1 with status := UserStatus.Answering next_index }
        let q_data := questions[next_index]?
        let s1 := { s with
          sessions := mapUpdate session_id (fun _ => sess2) s.sessions }
        let s2 := match username with
          | some u => s1.record_live_answer u question_index answer now
          | none => s1
        let msgs := match q_data, s2.sessions.lookup session_id with
          | some q, some se =>
              se.sendTo (.Question next_index q.text q.code q.options)
          | _, _ => []
        (s2, msgs)

/-- The reconnection check at the top of handle_connection
(server.rs:93-102): the session mapped to this ip, provided it is
exactly Disconnected and has a username, together with that username
and its derived current question index. -/
def reconnectInfo (s : ServerState) (ip : Nat) :
    Option (Nat × String × Nat) :=
  (s.ip_to_id.lookup ip).bind (fun existing_id =>
    (s.sessions.lookup existing_id).bind (fun sess =>
      if sess.status = UserStatus.Disconnected then
        sess.username.map (fun u =>
          (existing_id, u, sess.current_question_index))
      else none))

/-- handle_connection from server.rs (lines 63-166), after the
transport handshake: the ban check, the reconnection check (existing
session for this ip that is Disconnected and has a username), and
either session reuse with status reconciliation or creation of a fresh
session.  ch is the new outbound channel, fresh the Uuid a new session
would get. -/
def handle_connection (ip ch fresh : Nat) (s : ServerState) :
    ServerState × List (Nat × ServerMessage) :=
  if ip ∈ s.banned_ips then (s, [])
  else
    let server_status := s.status
    let questions_len := s.questions.length
    let question_data := if server_status = ServerStatus.InProgress then
        (reconnectInfo s ip).bind (fun info =>
          if info.2.2 < questions_len then
            (s.questions[info.2.2]?).map (fun q =>
              (info.2.2, q.text, q.code, q.options))
          else none)
      else none
    match reconnectInfo s ip with
    | some (existing_id, username, current_q) =>
      let s1 := { s with sessions := mapUpdate existing_id (fun existing =>
        { existing with
          sender := some ch
          status := if server_status = ServerStatus.InProgress then
              (if questions_len ≤ current_q then UserStatus.Finished
               else UserStatus.Answering current_q)
            else UserStatus.InLobby }) s.sessions }
      let s2 := s1.add_to_history ("User " ++ username ++ " reconnected")
      let msgs := [(ch, ServerMessage.ReconnectAccepted username current_q)] ++
        (match question_data with
         | some (index, text, code, options) =>
             [(ch, ServerMessage.Question index text code options)]
         | none => [])
      (s2, msgs)
    | none =>
      let session := UserSession.new fresh ip ch
      let s1 := { s with
        sessions := s.sessions ++ [(fresh, session)]
        ip_to_id := assocInsert ip fresh s.ip_to_id }
      (s1, [(ch, ServerMessage.ConnectionAck)])

/-- The disconnect epilogue of handle_messages from server.rs (lines
213-236): when a connection read loop ends, clear the outbound channel
and, unless the session already Finished, convert its status to
Disconnected (logging the disconnect when it had a username). -/
def mark_disconnected (session_id : Nat) (s : ServerState) : ServerState :=
  match s.sessions.lookup session_id with
  | none => s
  | some sess =>
    if sess.status = UserStatus.Finished then
      { s with sessions := (mapUpdate session_id
          (fun se => { se with sender := none }) s.sessions) }
    else
      let s1 := { s with sessions := (mapUpdate session_id
        (fun se => { se with sender := none, status := UserStatus.Disconnected }) s.sessions) }
      match sess.username with
      | some u => s1.add_to_history ("User " ++ u ++ " disconnected")
      | none => s1

/-- CommandResult from commands.rs. -/
inductive CommandResult
  | Ok (msg : Option String)
  | Error (msg : String)
  | Quit
  deriving DecidableEq, Repr

/-- cmd_start from commands.rs (lines 50-89). -/
def cmd_start (s : ServerState) :
    CommandResult × ServerState × List (Nat × ServerMessage) :=
  if s.status ≠ ServerStatus.Lobby then
    (.Error "Quiz has already started.", s, [])
  else
    let named_count := s.named_user_count
    if named_count = 0 then
      (.Error "No users have joined yet.", s, [])
    else
      let num_questions := s.questions.length
      let s1 := { s with sessions := (s.sessions.map
        (fun (p : Nat × UserSession) =>
          if p.2.username.isSome ∧ p.2.status = UserStatus.InLobby then
            (p.1, { (p.2.init_answers num_questions) with
                    status := UserStatus.Answering 0 })
          else p)) }
      let s2 := { s1 with
        status := ServerStatus.InProgress
        current_view := ServerView.Analytics }
      let msgs1 := s2.broadcast (.QuizStart num_questions)
      let msgs2 := match s2.questions.head? with
        | some q => s2.broadcast (.Question 0 q.text q.code q.options)
        | none => []
      (.Ok (some ("Quiz started with " ++ toString named_count ++ " users!")),
        s2, msgs1 ++ msgs2)

/-- The first pass of cmd_stop over the session map: recompute each
Finished session's score (other sessions untouched).  The Rust loop
mutates each session independently through get_mut, which is a map
over the entries. -/
def stopUpdated (questions : List Question) :
    List (Nat × UserSession) → List (Nat × UserSession) :=
  List.map (fun p =>
    if p.2.is_finished then
      (p.1, { p.2 with score := some (p.2.calculate_score questions) })
    else p)

/-- The results_to_send collector of cmd_stop: for every Finished
session its id, recomputed score, username and answer results. -/
def stopResults (questions : List Question)
    (sessions : List (Nat × UserSession)) :
    List (Nat × Nat × String × List AnswerResult) :=
  sessions.filterMap (fun p =>
    if p.2.is_finished then
      some (p.1, p.2.score.getD 0, p.2.username.getD "",
        answerResults p.2.answers questions)
    else none)

/-- The host_ended_ids collector of cmd_stop: ids of connected
non-finished sessions. -/
def stopHostEnded (sessions : List (Nat × UserSession)) : List Nat :=
  sessions.filterMap (fun p =>
    if !p.2.is_finished && p.2.is_connected then some p.1 else none)

/-- cmd_stop from commands.rs (lines 92-169): first pass recomputing
scores and collecting recipients, second pass sending results with a
leaderboard generated fresh per recipient from the updated state, and
HostEndedQuiz to connected non-finished sessions. -/
def cmd_stop (s : ServerState) :
    CommandResult × ServerState × List (Nat × ServerMessage) :=
  if s.status ≠ ServerStatus.InProgress then
    (.Error "Quiz is not in progress.", s, [])
  else
    let questions := s.questions
    let updated := stopUpdated questions s.sessions
    let results_to_send := stopResults questions updated
    let host_ended_ids := stopHostEnded s.sessions
    let s2 := { s with status := ServerStatus.Finished, sessions := updated }
    let resultMsgs := results_to_send.flatMap (fun r =>
      match s2.sessions.lookup r.1 with
      | some sess => sess.sendTo (.QuizResults r.2.1 questions.length r.2.2.2
          (s2.generate_leaderboard r.2.2.1))
      | none => [])
    let endedMsgs := host_ended_ids.flatMap (fun id =>
      match s2.sessions.lookup id with
      | some sess => sess.sendTo .HostEndedQuiz
      | none => [])
    (.Ok (some "Quiz stopped. Results sent to finished users."),
      s2, resultMsgs ++ endedMsgs)

/-- cmd_quit from commands.rs (lines 172-177). -/
def cmd_quit (s : ServerState) :
    CommandResult × ServerState × List (Nat × ServerMessage) :=
  let msgs := s.broadcast_all .HostEndedQuiz
  (.Quit, { s with should_quit := true }, msgs)

/-- cmd_kick from commands.rs (lines 180-197). -/
def cmd_kick (s : ServerState) (args : List String) :
    CommandResult × ServerState × List (Nat × ServerMessage) :=
  match args.head? with
  | none => (.Error "Usage: kick <username>", s, [])
  | some username =>
    match s.username_to_id.lookup username with
    | some id =>
      match s.sessions.lookup id with
      | some sess =>
        let msgs := sess.sendTo (.Kicked "Kicked by host")
        let s1 := { s with sessions := (mapUpdate id
          (fun se => { se with sender := none, status := UserStatus.Disconnected }) s.sessions) }
        (.Ok (some ("Kicked user: " ++ username)), s1, msgs)
      | none => (.Error ("User not found: " ++ username), s, [])
    | none => (.Error ("User not found: " ++ username), s, [])

/-- cmd_ban from commands.rs (lines 200-223): insert the IP in the ban
set, then the kick effect. -/
def cmd_ban (s : ServerState) (args : List String) :
    CommandResult × ServerState × List (Nat × ServerMessage) :=
  match args.head? with
  | none => (.Error "Usage: ban <username>", s, [])
  | some username =>
    match s.get_user_by_name username with
    | some sess0 =>
      let ip := sess0.ip_addr
      let s1 := { s with banned_ips :=
        if ip ∈ s.banned_ips then s.banned_ips else s.banned_ips ++ [ip] }
      let msgs := match s1.get_user_by_name username with
        | some se => se.sendTo (.Kicked "Banned by host")
        | none => []
      let s2 := match s1.username_to_id.lookup username with
        | some id => { s1 with sessions := (mapUpdate id
            (fun se => { se with sender := none, status := UserStatus.Disconnected }) s1.sessions) }
        | none => s1
      (.Ok (some ("Banned user: " ++ username ++ " (IP: " ++ toString ip
        ++ ")")), s2, msgs)
    | none => (.Error ("User not found: " ++ username), s, [])

/-- cmd_unban from commands.rs (lines 226-242); the textual IpAddr
parse is modelled by String.toNat? on the opaque Nat encoding. -/
def cmd_unban (s : ServerState) (args : List String) :
    CommandResult × ServerState × List (Nat × ServerMessage) :=
  match args.head? with
  | none => (.Error "Usage: unban <ip>", s, [])
  | some ip_str =>
    match ip_str.toNat? with
    | some ip =>
      if ip ∈ s.banned_ips then
        (.Ok (some ("Unbanned IP: " ++ toString ip)),
          { s with banned_ips := s.banned_ips.erase ip }, [])
      else
        (.Error ("IP not in ban list: " ++ toString ip), s, [])
    | none => (.Error ("Invalid IP address: " ++ ip_str), s, [])

/-- cmd_view from commands.rs (lines 245-258). -/
def cmd_view (s : ServerState) (args : List String) :
    CommandResult × ServerState × List (Nat × ServerMessage) :=
  match args.head? with
  | none => (.Ok (some "Viewing all users."),
      { s with current_view := ServerView.Analytics }, [])
  | some a =>
    if strToLower a = "all" then
      (.Ok (some "Viewing all users."),
        { s with current_view := ServerView.Analytics }, [])
    else if (s.get_user_by_name a).isSome then
      (.Ok (some ("Viewing user: " ++ a)),
        { s with current_view := ServerView.UserDetail a }, [])
    else
      (.Error ("User not found: " ++ a), s, [])

/-- cmd_list from commands.rs (lines 261-292): read-only enumeration. -/
def cmd_list (s : ServerState) (args : List String) :
    CommandResult × ServerState × List (Nat × ServerMessage) :=
  if (args.head?.map (fun a => strToLower a == "bans")).getD false then
    if s.banned_ips = [] then (.Ok (some "No banned IPs."), s, [])
    else
      (.Ok (some ("Banned IPs: " ++
        String.intercalate ", " (s.banned_ips.map toString))), s, [])
  else
    let users := s.sessions.filterMap (fun p =>
      p.2.username.map (fun name =>
        let status_str := match p.2.status with
          | UserStatus.InLobby => "lobby"
          | UserStatus.Answering i => "Q" ++ toString (i + 1)
          | UserStatus.Finished => "done"
          | UserStatus.Disconnected => "disconnected"
          | UserStatus.Connected => "connecting"
        name ++ " (" ++ status_str ++ ")"))
    if users = [] then (.Ok (some "No users connected."), s, [])
    else (.Ok (some ("Users: " ++ String.intercalate ", " users)), s, [])

/-- cmd_help from commands.rs (lines 295-309); the Rust function takes
no state, the state is threaded for uniformity and returned as is. -/
def cmd_help (s : ServerState) :
    CommandResult × ServerState × List (Nat × ServerMessage) :=
  (.Ok (some ("Available commands:\n  start          - Start the quiz (lobby only)\n  stop           - End quiz, send results to finished users\n  quit/exit      - Shutdown server\n  kick <user>    - Disconnect a user\n  ban <user>     - Kick and ban user\x27s IP\n  unban <ip>     - Remove IP from ban list\n  view <user>    - Show detailed view of user\n  view all       - Show all users analytics\n  list           - List connected users\n  list bans      - List banned IPs\n  help/?         - Show this help")), s, [])

/-- The tokenizer of execute_command: split_whitespace, character by
character. -/
def tokenize (input : String) : List String :=
  ((input.data.splitOnP Char.isWhitespace).filter (fun t => t ≠ [])).map
    String.mk

/-- execute_command from commands.rs (lines 22-47). -/
def execute_command (s : ServerState) (input : String) :
    CommandResult × ServerState × List (Nat × ServerMessage) :=
  let input := strTrim input
  if input = "" then (.Ok none, s, [])
  else
    match tokenize input with
    | [] => (.Ok none, s, [])
    | cmd :: args =>
      match strToLower cmd with
      | "start" => cmd_start s
      | "stop" => cmd_stop s
      | "quit" => cmd_quit s
      | "exit" => cmd_quit s
      | "kick" => cmd_kick s args
      | "ban" => cmd_ban s args
      | "unban" => cmd_unban s args
      | "view" => cmd_view s args
      | "list" => cmd_list s args
      | "help" => cmd_help s
      | "?" => cmd_help s
      | other => (.Error ("Unknown command: " ++ other ++
          ". Type \x27help\x27 for available commands."), s, [])

/-- One state-mutating operation on the shared server state: a
connection event, an inbound client message (Join or SubmitAnswer), a
connection drop, or a host command line. -/
inductive Op
  | connect (ip ch fresh : Nat)
  | join (session_id : Nat) (username : String)
  | answer (session_id question_index answer now : Nat)
  | drop (session_id : Nat)
  | host (input : String)

/-- The state-transition function: the effect of one operation on the
server state (emitted messages discarded). -/
def step (s : ServerState) (op : Op) : ServerState :=
  match op with
  | .connect ip ch fresh => (handle_connection ip ch fresh s).1
  | .join sid u => (handle_join sid u s).1
  | .answer sid qi a now => (handle_answer sid qi a now s).1
  | .drop sid => mark_disconnected sid s
  | .host input => (execute_command s input).2.1

/-- Rank of a global status along the Lobby, InProgress, Finished
progression. -/
def statusRank : ServerStatus → Nat
  | .Lobby => 0
  | .InProgress => 1
  | .Finished => 2

/-- Placeholder question, used only as a getD default. -/
def defaultQuestion : Question :=
  { text := "", code := none, options := [], correct_answer := 0 }

/-- Spec-side scoring (spec 4.3/4.5), stated positionally: the count
of slot indices whose stored choice equals that question's correct
index; an unanswered slot (none) never satisfies the equation, so
unanswered slots never count.  To be compared with the zip-based
calculate_score of the code. -/
def specScore (answers : List (Option Nat)) (qs : List Question) : Nat :=
  (List.range qs.length).countP (fun i =>
    answers.getD i none == some ((qs.getD i defaultQuestion).correct_answer))

/-- Drop the is-requester annotation of a leaderboard entry. -/
def stripYou (e : LeaderboardEntry) : LeaderboardEntry :=
  { e with is_you := false }

/-!
Concrete fixtures for witnesses and counterexamples.
-/

/-- A question whose correct option is 0. -/
def qA : Question :=
  { text := "qa", code := none, options := ["o0", "o1", "o2", "o3"],
    correct_answer := 0 }

/-- A question whose correct option is 1. -/
def qB : Question :=
  { text := "qb", code := none, options := ["o0", "o1", "o2", "o3"],
    correct_answer := 1 }

/-- A freshly started server with two questions and no sessions. -/
def baseState : ServerState :=
  { status := .Lobby, questions := [qA, qB], sessions := [],
    username_to_id := [], ip_to_id := [], banned_ips := [],
    current_view := .Lobby, command_history := [], live_answers := [],
    should_quit := false, port := 8712 }

/-- A named session one answer away from finishing a 1-question quiz. -/
def sessW1 : UserSession :=
  { id := 5, username := some "ann", ip_addr := 1, status := .Answering 0,
    answers := [none], score := none, finished_at := none, sender := some 10 }

/-- InProgress server holding sessW1 and a single question. -/
def stW1 : ServerState :=
  { baseState with
    status := .InProgress
    questions := [qA]
    sessions := [(5, sessW1)]
    username_to_id := [("ann", 5)]
    ip_to_id := [(1, 5)] }

/-- A named session at the start of a 2-question quiz. -/
def sessW10 : UserSession :=
  { id := 5, username := some "ann", ip_addr := 1, status := .Answering 0,
    answers := [none, none], score := none, finished_at := none,
    sender := some 10 }

/-- InProgress server holding sessW10. -/
def stW10 : ServerState :=
  { baseState with
    status := .InProgress
    sessions := [(5, sessW10)]
    username_to_id := [("ann", 5)]
    ip_to_id := [(1, 5)] }

/-- A session that has already joined as abc. -/
def sessC4 : UserSession :=
  { id := 0, username := some "abc", ip_addr := 2, status := .InLobby,
    answers := [], score := none, finished_at := none, sender := some 9 }

/-- Lobby server in which abc is bound to session 0 itself. -/
def stC4 : ServerState :=
  { baseState with
    sessions := [(0, sessC4)]
    username_to_id := [("abc", 0)] }

/-- A connected session that has not joined yet. -/
def sessW4 : UserSession :=
  { id := 3, username := none, ip_addr := 2, status := .Connected,
    answers := [], score := none, finished_at := none, sender := some 11 }

/-- Lobby server holding only the unnamed sessW4. -/
def stW4 : ServerState := { baseState with sessions := [(3, sessW4)] }

/-- A disconnected session that never joined (no username). -/
def sessC5 : UserSession :=
  { id := 0, username := none, ip_addr := 7, status := .Disconnected,
    answers := [], score := none, finished_at := none, sender := none }

/-- Server whose ip 7 maps to the unnamed disconnected sessC5. -/
def stC5 : ServerState :=
  { baseState with
    sessions := [(0, sessC5)]
    ip_to_id := [(7, 0)] }

/-- A named, disconnected session that answered question 0 only. -/
def sessW5 : UserSession :=
  { id := 0, username := some "cid", ip_addr := 7, status := .Disconnected,
    answers := [some 0, none], score := none, finished_at := none,
    sender := none }

/-- InProgress server whose ip 7 maps to sessW5. -/
def stW5 : ServerState :=
  { baseState with
    status := .InProgress
    sessions := [(0, sessW5)]
    username_to_id := [("cid", 0)]
    ip_to_id := [(7, 0)] }

/-- A Finished session whose outbound channel is already gone. -/
def sessC6 : UserSession :=
  { id := 0, username := some "aaa", ip_addr := 1, status := .Finished,
    answers := [some 0, some 1], score := some 2, finished_at := some 4,
    sender := none }

/-- InProgress server holding only the channel-less Finished sessC6. -/
def stC6 : ServerState :=
  { baseState with
    status := .InProgress
    sessions := [(0, sessC6)]
    username_to_id := [("aaa", 0)]
    ip_to_id := [(1, 0)] }

/-- A Finished session with an attached channel. -/
def sessW6a : UserSession :=
  { id := 0, username := some "aaa", ip_addr := 1, status := .Finished,
    answers := [some 0, some 0], score := some 1, finished_at := some 4,
    sender := some 20 }

/-- A still-answering session with an attached channel. -/
def sessW6b : UserSession :=
  { id := 1, username := some "bbb", ip_addr := 2, status := .Answering 1,
    answers := [some 1, none], score := none, finished_at := none,
    sender := some 21 }

/-- InProgress server holding sessW6a and sessW6b. -/
def stW6 : ServerState :=
  { baseState with
    status := .InProgress
    sessions := [(0, sessW6a), (1, sessW6b)]
    username_to_id := [("aaa", 0), ("bbb", 1)]
    ip_to_id := [(1, 0), (2, 1)] }

/-- Finished session aa: created first (id 0), score 1, finish time 9. -/
def sessC2a : UserSession :=
  { id := 0, username := some "aa", ip_addr := 1, status := .Finished,
    answers := [some 0, some 2], score := some 1, finished_at := some 9,
    sender := some 30 }

/-- Finished session bb: created second (id 1), also score 1 and
finish time 9 (an exact tie on both sort keys). -/
def sessC2b : UserSession :=
  { id := 1, username := some "bb", ip_addr := 2, status := .Finished,
    answers := [some 0, some 0], score := some 1, finished_at := some 9,
    sender := some 31 }

/-- A registry whose session map enumerates aa before bb. -/
def stC2a : ServerState :=
  { baseState with
    status := .Finished
    sessions := [(0, sessC2a), (1, sessC2b)]
    username_to_id := [("aa", 0), ("bb", 1)]
    ip_to_id := [(1, 0), (2, 1)] }

/-- The same registry content with the other (equally legal) HashMap
iteration order: bb enumerated before aa. -/
def stC2b : ServerState :=
  { stC2a with sessions := [(1, sessC2b), (0, sessC2a)] }

/-- A Finished session that is still connected (sender present). -/
def sessC8 : UserSession :=
  { id := 0, username := some "fin", ip_addr := 3, status := .Finished,
    answers := [some 0, some 1], score := some 2, finished_at := some 6,
    sender := some 12 }

/-- InProgress server holding the connected Finished sessC8. -/
def stC8 : ServerState :=
  { baseState with
    status := .InProgress
    sessions := [(0, sessC8)]
    username_to_id := [("fin", 0)]
    ip_to_id := [(3, 0)] }

/-- A named, connected lobby session (kick target). -/
def sessW9 : UserSession :=
  { id := 4, username := some "bob", ip_addr := 8, status := .InLobby,
    answers := [], score := none, finished_at := none, sender := some 14 }

/-- Lobby server holding sessW9, with both index maps populated. -/
def stW9 : ServerState :=
  { baseState with
    sessions := [(4, sessW9)]
    username_to_id := [("bob", 4)]
    ip_to_id := [(8, 4)] }

/-!
Shared lemmas about the association-list operations.
-/

theorem length_mapUpdate (k : Nat) (f : UserSession → UserSession)
    (l : List (Nat × UserSession)) : (mapUpdate k f l).length = l.length := by
  induction l with
  | nil => rfl
  | cons p t ih => simp [mapUpdate, ih]

theorem keys_mapUpdate (k : Nat) (f : UserSession → UserSession)
    (l : List (Nat × UserSession)) :
    (mapUpdate k f l).map Prod.fst = l.map Prod.fst := by
  induction l with
  | nil => rfl
  | cons p t ih =>
    rcases p with ⟨k2, v⟩
    by_cases h : k2 = k
    · subst h
      simp [mapUpdate, ih]
    · have h2 : (k2 == k) = false := by simp [h]
      simp [mapUpdate, h2, ih]

theorem lookup_mapUpdate (k : Nat) (f : UserSession → UserSession)
    (l : List (Nat × UserSession)) :
    (mapUpdate k f l).lookup k = (l.lookup k).map f := by
  induction l with
  | nil => rfl
  | cons p t ih =>
    rcases p with ⟨k2, v⟩
    by_cases h : k2 = k
    · subst h
      simp [mapUpdate, List.lookup_cons]
    · have h2 : (k2 == k) = false := by simp [h]
      have h3 : (k == k2) = false := by simp [Ne.symm h]
      simp only [mapUpdate, h2, Bool.false_eq_true, if_false]
      rw [List.lookup_cons, List.lookup_cons]
      simp only [h3]
      exact ih

theorem lookup_of_mem_nodup {l : List (Nat × UserSession)} {k : Nat}
    {v : UserSession} (h : (l.map Prod.fst).Nodup) (hm : (k, v) ∈ l) :
    l.lookup k = some v := by
  induction l with
  | nil => cases hm
  | cons p t ih =>
    rcases p with ⟨k2, v2⟩
    simp only [List.map_cons, List.nodup_cons] at h
    rcases List.mem_cons.mp hm with heq | hmem
    · injection heq with h1 h2
      subst h1
      subst h2
      simp [List.lookup_cons]
    · have hk : k ≠ k2 := by
        rintro rfl
        exact h.1 (List.mem_map_of_mem Prod.fst hmem)
      have h2 : (k == k2) = false := by simp [hk]
      rw [List.lookup_cons]
      simp only [h2]
      exact ih h.2 hmem

theorem lookup_append_of_none {l : List (String × Nat)} (t : String) (v : Nat)
    (h : l.lookup t = none) : (l ++ [(t, v)]).lookup t = some v := by
  induction l with
  | nil => simp [List.lookup]
  | cons p rest ih =>
    rcases p with ⟨k2, v2⟩
    rw [List.lookup_cons] at h
    by_cases hk : t = k2
    · subst hk
      simp at h
    · have h2 : (t == k2) = false := by simp [hk]
      simp only [h2] at h
      rw [List.cons_append, List.lookup_cons]
      simp only [h2]
      exact ih h

/-!
Frame lemmas: the bookkeeping helpers touch only their own field.
-/

theorem record_live_answer_status (s : ServerState) (u : String)
    (qi a now : Nat) : (s.record_live_answer u qi a now).status = s.status := rfl

theorem record_live_answer_sessions (s : ServerState) (u : String)
    (qi a now : Nat) :
    (s.record_live_answer u qi a now).sessions = s.sessions := rfl

theorem add_to_history_status (s : ServerState) (m : String) :
    (s.add_to_history m).status = s.status := rfl

theorem add_to_history_sessions (s : ServerState) (m : String) :
    (s.add_to_history m).sessions = s.sessions := rfl

theorem add_to_history_username_to_id (s : ServerState) (m : String) :
    (s.add_to_history m).username_to_id = s.username_to_id := rfl

theorem add_to_history_ip_to_id (s : ServerState) (m : String) :
    (s.add_to_history m).ip_to_id = s.ip_to_id := rfl

/-!
strTrim is idempotent.
-/

theorem dropWhile_head_not (p : Char → Bool) (l : List Char) :
    ∀ a, (l.dropWhile p).head? = some a → p a = false := by
  induction l with
  | nil => intro a h; simp at h
  | cons b t ih =>
    intro a h
    by_cases hb : p b
    · rw [List.dropWhile_cons_of_pos hb] at h
      exact ih a h
    · rw [List.dropWhile_cons_of_neg hb] at h
      simp at h
      subst h
      simpa using hb

theorem dropWhile_append_singleton (p : Char → Bool) (a : Char)
    (h : p a = false) (y : List Char) :
    ∃ w, (y ++ [a]).dropWhile p = w ++ [a] := by
  induction y with
  | nil =>
    refine ⟨[], ?_⟩
    simp [List.dropWhile_cons, h]
  | cons b t ih =>
    by_cases hb : p b
    · obtain ⟨w, hw⟩ := ih
      exact ⟨w, by simp [List.dropWhile_cons, hb, hw]⟩
    · exact ⟨b :: t, by simp [List.dropWhile_cons, hb]⟩

theorem dropWhile_idem (p : Char → Bool) (l : List Char) :
    (l.dropWhile p).dropWhile p = l.dropWhile p := by
  induction l with
  | nil => rfl
  | cons b t ih =>
    by_cases hb : p b
    · simp [List.dropWhile_cons, hb, ih]
    · simp [List.dropWhile_cons, hb]

theorem strTrim_idem (s : String) : strTrim (strTrim s) = strTrim s := by
  unfold strTrim
  apply congrArg String.mk
  show ((((((s.data.dropWhile Char.isWhitespace).reverse.dropWhile
      Char.isWhitespace).reverse).dropWhile Char.isWhitespace).reverse).dropWhile
      Char.isWhitespace).reverse =
    ((s.data.dropWhile Char.isWhitespace).reverse.dropWhile
      Char.isWhitespace).reverse
  set ws := Char.isWhitespace
  set u := s.data.dropWhile ws with hu
  have hv : ((u.reverse.dropWhile ws).reverse).dropWhile ws
      = (u.reverse.dropWhile ws).reverse := by
    cases hcase : u with
    | nil => simp
    | cons a t =>
      have ha : ws a = false := by
        apply dropWhile_head_not ws s.data
        rw [← hu, hcase]
        rfl
      obtain ⟨w, hw⟩ := dropWhile_append_singleton ws a ha t.reverse
      rw [List.reverse_cons, hw]
      simp [List.dropWhile_cons, ha]
  rw [hv]
  rw [List.reverse_reverse, dropWhile_idem]

/-!
Lemmas about the answers vector: takeWhile, set and scoring.
-/

theorem getD_at_current_none (l : List (Option Nat))
    (h : (l.takeWhile Option.isSome).length < l.length) :
    l.getD (l.takeWhile Option.isSome).length none = none := by
  induction l with
  | nil => simp at h
  | cons a t ih =>
    cases a with
    | some x =>
      rw [List.takeWhile_cons_of_pos rfl] at h ⊢
      simp only [List.length_cons] at h ⊢
      rw [List.getD_cons_succ]
      exact ih (Nat.lt_of_succ_lt_succ h)
    | none =>
      rw [List.takeWhile_cons_of_neg (by simp)]
      simp

theorem all_isSome_of_set_current (l : List (Option Nat)) (x : Nat)
    (h : (l.takeWhile Option.isSome).length + 1 = l.length) :
    ∀ a ∈ l.set (l.takeWhile Option.isSome).length (some x), a.isSome := by
  induction l with
  | nil => simp at h
  | cons b t ih =>
    cases b with
    | some y =>
      rw [List.takeWhile_cons_of_pos rfl] at h ⊢
      simp only [List.length_cons] at h ⊢
      rw [List.set_cons_succ]
      intro a ha
      rcases List.mem_cons.mp ha with rfl | hmem
      · rfl
      · exact ih (Nat.succ_injective h) a hmem
    | none =>
      rw [List.takeWhile_cons_of_neg (by simp)] at h ⊢
      simp only [List.length_nil, Nat.zero_add, List.length_cons] at h
      have ht : t = [] := List.length_eq_zero.mp (Nat.succ_injective h.symm)
      subst ht
      simp

theorem takeWhile_length_set_current (l : List (Option Nat)) (x : Nat)
    (k : Nat) (hk : k = (l.takeWhile Option.isSome).length)
    (hkl : k < l.length)
    (hdrop : ∀ j, k < j → j < l.length → l.getD j none = none) :
    ((l.set k (some x)).takeWhile Option.isSome).length = k + 1 := by
  induction l generalizing k with
  | nil => simp at hkl
  | cons b t ih =>
    cases b with
    | some y =>
      rw [List.takeWhile_cons_of_pos rfl] at hk
      simp only [List.length_cons] at hk hkl
      subst hk
      rw [List.set_cons_succ, List.takeWhile_cons_of_pos rfl]
      simp only [List.length_cons]
      have := ih ((t.takeWhile Option.isSome).length) rfl
        (Nat.lt_of_succ_lt_succ hkl)
        (fun j hj hjl => by
          have := hdrop (j + 1) (Nat.succ_lt_succ hj) (Nat.succ_lt_succ hjl)
          rwa [List.getD_cons_succ] at this)
      omega
    | none =>
      rw [List.takeWhile_cons_of_neg (by simp)] at hk
      simp only [List.length_nil] at hk
      subst hk
      rw [List.set_cons_zero, List.takeWhile_cons_of_pos rfl]
      cases t with
      | nil => simp
      | cons c t2 =>
        have hc : c = none := by
          have := hdrop 1 (by omega) (by simp)
          simpa using this
        subst hc
        rw [List.takeWhile_cons_of_neg (by simp)]
        simp

theorem calculate_score_eq_specScore (answers : List (Option Nat))
    (qs : List Question) (h : answers.length = qs.length) :
    ((answers.zip qs).filter
      (fun p => p.1 == some p.2.correct_answer)).length
      = specScore answers qs := by
  induction qs generalizing answers with
  | nil =>
    have : answers = [] := List.length_eq_zero.mp h
    subst this
    simp [specScore]
  | cons q t ih =>
    cases answers with
    | nil => simp at h
    | cons a as =>
      simp only [List.length_cons] at h
      have h2 := Nat.succ_injective h
      simp only [specScore, List.zip_cons_cons, List.filter_cons,
        List.length_cons, List.range_succ_eq_map, List.countP_cons,
        List.countP_map]
      have hpred : List.countP
          ((fun i => (a :: as).getD i none ==
            some (((q :: t).getD i defaultQuestion).correct_answer)) ∘
            Nat.succ) (List.range t.length)
          = specScore as t := by
        apply List.countP_congr
        intro i _
        simp [Function.comp, List.getD_cons_succ]
      rw [hpred, ← ih as h2]
      by_cases ha : a = some q.correct_answer
      · have ha0 : ((a :: as).getD 0 none ==
            some (((q :: t).getD 0 defaultQuestion).correct_answer)) = true := by
          simpa using ha
        simp [ha, ha0]
      · have ha0 : ((a :: as).getD 0 none ==
            some (((q :: t).getD 0 defaultQuestion).correct_answer)) = false := by
          simpa using ha
        simp [ha, ha0]

theorem score_set_ne (answers : List (Option Nat)) (qs : List Question)
    (k x : Nat) (hka : answers.getD k none = none)
    (hx : k < qs.length → x ≠ (qs.getD k defaultQuestion).correct_answer) :
    (((answers.set k (some x)).zip qs).filter
      (fun p => p.1 == some p.2.correct_answer)).length
      = ((answers.zip qs).filter
        (fun p => p.1 == some p.2.correct_answer)).length := by
  induction answers generalizing qs k with
  | nil => simp
  | cons a as ih =>
    cases qs with
    | nil => simp
    | cons q t =>
      cases k with
      | zero =>
        rw [List.getD_cons_zero] at hka
        subst hka
        have hxq : x ≠ q.correct_answer := by
          have := hx (by simp)
          simpa using this
        rw [List.set_cons_zero]
        simp only [List.zip_cons_cons, List.filter_cons]
        have h1 : ((some x : Option Nat) == some q.correct_answer) = false := by
          simp [hxq]
        have h2 : ((none : Option Nat) == some q.correct_answer) = false := rfl
        simp [h1, h2]
      | succ k2 =>
        rw [List.getD_cons_succ] at hka
        rw [List.set_cons_succ]
        simp only [List.zip_cons_cons, List.filter_cons]
        have hx2 : k2 < t.length → x ≠ (t.getD k2 defaultQuestion).correct_answer := by
          intro hlen
          have := hx (by simp [List.length_cons]; omega)
          rwa [List.getD_cons_succ] at this
        have := ih t k2 hka hx2
        by_cases ha : (a == some q.correct_answer) = true <;>
          simp [ha, this]

/-!
C3.
-/

/-- C3: for every session and every SubmitAnswer whose claimed question
index differs from the session's derived current index, handling the
submission is a no-op: the server state is returned unchanged and no
outbound message is emitted. -/
theorem stale_submit_is_noop (s : ServerState) (sid qi ans now : Nat)
    (sess : UserSession) (hs : s.sessions.lookup sid = some sess)
    (hqi : qi ≠ sess.current_question_index) :
    handle_answer sid qi ans now s = (s, []) := by
  unfold handle_answer
  rw [hs]
  simp [hqi]

/-- Witness: submitting for question 1 while session 5 of stW1 is on
question 0 leaves the state untouched and emits nothing. -/
theorem stale_submit_is_noop_witness :
    stW1.sessions.lookup 5 = some sessW1 ∧
    (1 : Nat) ≠ sessW1.current_question_index ∧
    handle_answer 5 1 2 7 stW1 = (stW1, []) :=
  ⟨by decide, by decide,
    stale_submit_is_noop stW1 5 1 2 7 sessW1 (by decide) (by decide)⟩

/-!
C1.
-/

/-- C1: when a submission records an answer into the last unanswered
slot (every earlier slot already answered, the slot being the final
question), the session ends with status Finished, every slot answered,
the finish time stamped, and a final score equal to exactly the count
of slots whose stored answer equals that question's correct index
(specScore; unanswered slots never count). -/
theorem final_answer_scores (s : ServerState) (sid qi ans now : Nat)
    (sess : UserSession) (hs : s.sessions.lookup sid = some sess)
    (hqi : qi = sess.current_question_index)
    (hlen : sess.answers.length = s.questions.length)
    (hlast : qi + 1 = s.questions.length) :
    ∃ sess2, (handle_answer sid qi ans now s).1.sessions.lookup sid
        = some sess2 ∧
      sess2.status = UserStatus.Finished ∧
      (∀ a ∈ sess2.answers, a.isSome) ∧
      sess2.score = some (specScore sess2.answers s.questions) ∧
      sess2.finished_at = some now := by
  have hqi2 : qi = (sess.answers.takeWhile Option.isSome).length := hqi
  have hlt : qi < sess.answers.length := by omega
  have hne : ¬ (qi ≠ sess.current_question_index) := by simp [hqi]
  have hfin : s.questions.length ≤ qi + 1 := Nat.le_of_eq hlast.symm
  refine ⟨{ sess with
      answers := sess.answers.set qi (some ans)
      status := UserStatus.Finished
      finished_at := some now
      score := some (UserSession.calculate_score
        { sess with answers := sess.answers.set qi (some ans) }
        s.questions) }, ?_, rfl, ?_, ?_, rfl⟩
  · unfold handle_answer
    rw [hs]
    simp only [Option.some_bind, if_neg hne, if_pos hlt, if_pos hfin]
    cases husr : sess.username with
    | some u =>
      simp only [add_to_history_sessions, record_live_answer_sessions]
      rw [lookup_mapUpdate, hs]
      rfl
    | none =>
      simp only [add_to_history_sessions]
      rw [lookup_mapUpdate, hs]
      rfl
  · intro a ha
    have hset := all_isSome_of_set_current sess.answers ans (by omega)
    rw [← hqi2] at hset
    exact hset a ha
  · show some _ = some _
    congr 1
    unfold UserSession.calculate_score
    apply calculate_score_eq_specScore
    simp [hlen]

/-- Witness: in stW1, session 5 answers the only question; it finishes
with every slot answered and score specScore. -/
theorem final_answer_scores_witness :
    stW1.sessions.lookup 5 = some sessW1 ∧
    (0 : Nat) = sessW1.current_question_index ∧
    sessW1.answers.length = stW1.questions.length ∧
    0 + 1 = stW1.questions.length ∧
    (∃ sess2, (handle_answer 5 0 0 7 stW1).1.sessions.lookup 5 = some sess2 ∧
      sess2.status = UserStatus.Finished ∧
      (∀ a ∈ sess2.answers, a.isSome) ∧
      sess2.score = some (specScore sess2.answers stW1.questions) ∧
      sess2.finished_at = some 7) :=
  ⟨by decide, by decide, by decide, by decide,
    final_answer_scores stW1 5 0 0 7 sessW1 (by decide) (by decide)
      (by decide) (by decide)⟩

/-!
C10.
-/

/-- C10: an accepted submission stores the chosen option without range
validation: any value (also one ≥ 4) is recorded in the slot, counts as
answered (the derived current index advances by one), and a value ≥ 4
is scored as incorrect whenever the question's correct index is one of
the 4 options, so the computed score is unchanged by it.  The hdrop
hypothesis records the reachability invariant that slots after the
current index are still unanswered. -/
theorem accepted_answer_unchecked (s : ServerState) (sid qi ans now : Nat)
    (sess : UserSession) (hs : s.sessions.lookup sid = some sess)
    (hqi : qi = sess.current_question_index)
    (hlt : qi < sess.answers.length)
    (hdrop : ∀ j, qi < j → j < sess.answers.length →
      sess.answers.getD j none = none) :
    ∃ sess2, (handle_answer sid qi ans now s).1.sessions.lookup sid
        = some sess2 ∧
      sess2.answers = sess.answers.set qi (some ans) ∧
      sess2.current_question_index = qi + 1 ∧
      (4 ≤ ans → (s.questions.getD qi defaultQuestion).correct_answer < 4 →
        sess2.calculate_score s.questions
          = sess.calculate_score s.questions) := by
  have hqi2 : qi = (sess.answers.takeWhile Option.isSome).length := hqi
  have hne : ¬ (qi ≠ sess.current_question_index) := by simp [hqi]
  have hslot : sess.answers.getD qi none = none := by
    rw [hqi2]
    exact getD_at_current_none sess.answers (hqi2 ▸ hlt)
  have hcount : ((sess.answers.set qi (some ans)).takeWhile
      Option.isSome).length = qi + 1 :=
    takeWhile_length_set_current sess.answers ans qi hqi2 hlt hdrop
  have hscore : ∀ sess2 : UserSession,
      sess2.answers = sess.answers.set qi (some ans) →
      4 ≤ ans → (s.questions.getD qi defaultQuestion).correct_answer < 4 →
      sess2.calculate_score s.questions
        = sess.calculate_score s.questions := by
    intro sess2 hans h4 hc
    unfold UserSession.calculate_score
    rw [hans]
    exact score_set_ne sess.answers s.questions qi ans hslot
      (fun _ => by omega)
  by_cases hb : s.questions.length ≤ qi + 1
  · refine ⟨{ sess with
        answers := sess.answers.set qi (some ans)
        status := UserStatus.Finished
        finished_at := some now
        score := some (UserSession.calculate_score
          { sess with answers := sess.answers.set qi (some ans) }
          s.questions) }, ?_, rfl, hcount, hscore _ rfl⟩
    unfold handle_answer
    rw [hs]
    simp only [Option.some_bind, if_neg hne, if_pos hlt, if_pos hb]
    cases husr : sess.username with
    | some u =>
      simp only [add_to_history_sessions, record_live_answer_sessions]
      rw [lookup_mapUpdate, hs]
      rfl
    | none =>
      simp only [add_to_history_sessions]
      rw [lookup_mapUpdate, hs]
      rfl
  · refine ⟨{ sess with
        answers := sess.answers.set qi (some ans)
        status := UserStatus.Answering (qi + 1) }, ?_, rfl, hcount,
      hscore _ rfl⟩
    unfold handle_answer
    rw [hs]
    simp only [Option.some_bind, if_neg hne, if_pos hlt, if_neg hb]
    cases husr : sess.username with
    | some u =>
      simp only [record_live_answer_sessions]
      rw [lookup_mapUpdate, hs]
      rfl
    | none =>
      rw [lookup_mapUpdate, hs]
      rfl

/-- Witness: in stW10 the out-of-range option 7 is stored for question
0, the current index moves to 1, and the score is unchanged. -/
theorem accepted_answer_unchecked_witness :
    stW10.sessions.lookup 5 = some sessW10 ∧
    (0 : Nat) = sessW10.current_question_index ∧
    0 < sessW10.answers.length ∧
    (∃ sess2, (handle_answer 5 0 7 3 stW10).1.sessions.lookup 5 = some sess2 ∧
      sess2.answers = sessW10.answers.set 0 (some 7) ∧
      sess2.current_question_index = 0 + 1 ∧
      (4 ≤ 7 → (stW10.questions.getD 0 defaultQuestion).correct_answer < 4 →
        sess2.calculate_score stW10.questions
          = sessW10.calculate_score stW10.questions)) :=
  ⟨by decide, by decide, by decide,
    accepted_answer_unchecked stW10 5 0 7 3 sessW10 (by decide) (by decide)
      (by decide)
      (by
        intro j h1 h2
        have h3 : j < 2 := h2
        have h4 : j = 1 := by omega
        subst h4
        rfl)⟩
/-!
C8.
-/

/-- C8 counterexample: session 0 of stC8 is Finished and connected;
when its read loop ends, the channel is cleared but the status is NOT
converted to Disconnected (the code preserves Finished), contradicting
the claim that the status is always converted. -/
theorem disconnect_keeps_finished_cex :
    (stC8.sessions.lookup 0).map UserSession.status
      = some UserStatus.Finished ∧
    (stC8.sessions.lookup 0).map UserSession.sender = some (some 12) ∧
    ((mark_disconnected 0 stC8).sessions.lookup 0).map UserSession.sender
      = some none ∧
    ((mark_disconnected 0 stC8).sessions.lookup 0).map UserSession.status
      = some UserStatus.Finished ∧
    ((mark_disconnected 0 stC8).sessions.lookup 0).map UserSession.status
      ≠ some UserStatus.Disconnected := by decide

/-- C8 (amended: a Finished session keeps status Finished, every other
status is converted to Disconnected): when a read loop ends the
outbound channel is cleared, the session is preserved in the registry
with all index maps intact, and the failure never touches the
process-shutdown flag. -/
theorem disconnect_preserves_session (s : ServerState) (sid : Nat)
    (sess : UserSession) (hs : s.sessions.lookup sid = some sess) :
    (mark_disconnected sid s).sessions.lookup sid
      = some { sess with
          sender := none
          status := if sess.status = UserStatus.Finished then sess.status
            else UserStatus.Disconnected } ∧
    (mark_disconnected sid s).sessions.length = s.sessions.length ∧
    (mark_disconnected sid s).username_to_id = s.username_to_id ∧
    (mark_disconnected sid s).ip_to_id = s.ip_to_id ∧
    (mark_disconnected sid s).banned_ips = s.banned_ips ∧
    (mark_disconnected sid s).status = s.status ∧
    (mark_disconnected sid s).should_quit = s.should_quit := by
  unfold mark_disconnected
  simp only [hs]
  by_cases hf : sess.status = UserStatus.Finished
  · rw [if_pos hf]
    refine ⟨?_, ?_, ?_, ?_, ?_, ?_, ?_⟩
    · rw [lookup_mapUpdate, hs]
      simp [hf]
    · exact length_mapUpdate _ _ _
    · rfl
    · rfl
    · rfl
    · rfl
    · rfl
  · rw [if_neg hf]
    cases hu : sess.username with
    | some u =>
      refine ⟨?_, ?_, ?_, ?_, ?_, ?_, ?_⟩
      · simp only [add_to_history_sessions]
        rw [lookup_mapUpdate, hs]
        simp [hf, hu]
      · simp only [add_to_history_sessions]
        exact length_mapUpdate _ _ _
      · exact add_to_history_username_to_id _ _
      · exact add_to_history_ip_to_id _ _
      · rfl
      · exact add_to_history_status _ _
      · rfl
    | none =>
      refine ⟨?_, ?_, ?_, ?_, ?_, ?_, ?_⟩
      · rw [lookup_mapUpdate, hs]
        simp [hf, hu]
      · exact length_mapUpdate _ _ _
      · rfl
      · rfl
      · rfl
      · rfl
      · rfl

/-- Witness for disconnect_preserves_session at stC8. -/
theorem disconnect_preserves_session_witness :
    stC8.sessions.lookup 0 = some sessC8 ∧
    ((mark_disconnected 0 stC8).sessions.lookup 0
      = some { sessC8 with
          sender := none
          status := if sessC8.status = UserStatus.Finished then sessC8.status
            else UserStatus.Disconnected } ∧
    (mark_disconnected 0 stC8).sessions.length = stC8.sessions.length ∧
    (mark_disconnected 0 stC8).username_to_id = stC8.username_to_id ∧
    (mark_disconnected 0 stC8).ip_to_id = stC8.ip_to_id ∧
    (mark_disconnected 0 stC8).banned_ips = stC8.banned_ips ∧
    (mark_disconnected 0 stC8).status = stC8.status ∧
    (mark_disconnected 0 stC8).should_quit = stC8.should_quit) :=
  ⟨by decide, disconnect_preserves_session stC8 0 sessC8 (by decide)⟩

/-!
Reconnection helper, shared by the reconnection claims.
-/

theorem handle_connection_reconnects (s : ServerState)
    (ip ch fresh sid : Nat) (sess : UserSession) (u : String)
    (hban : ip ∉ s.banned_ips)
    (hip : s.ip_to_id.lookup ip = some sid)
    (hs : s.sessions.lookup sid = some sess)
    (hst : sess.status = UserStatus.Disconnected)
    (hu : sess.username = some u) :
    (handle_connection ip ch fresh s).1.sessions
      = mapUpdate sid (fun existing => { existing with
          sender := some ch
          status := if s.status = ServerStatus.InProgress then
              (if s.questions.length ≤ sess.current_question_index then
                UserStatus.Finished
              else UserStatus.Answering sess.current_question_index)
            else UserStatus.InLobby }) s.sessions ∧
    (handle_connection ip ch fresh s).1.ip_to_id = s.ip_to_id ∧
    (handle_connection ip ch fresh s).1.username_to_id = s.username_to_id ∧
    (handle_connection ip ch fresh s).2.head?
      = some (ch, ServerMessage.ReconnectAccepted u
          sess.current_question_index) := by
  unfold handle_connection
  rw [if_neg hban]
  simp only [reconnectInfo, hip, Option.some_bind, hs, if_pos hst, hu,
    Option.map_some]
  exact ⟨rfl, rfl, rfl, rfl⟩

/-!
C5.
-/

/-- C5 counterexample: ip 7 of stC5 maps to session 0 whose status is
exactly Disconnected, yet (because that session has no username) the
connection is NOT treated as a reconnect: a second session with the
fresh id 5 is created, the ip map is repointed to it, and a plain
ConnectionAck is sent. -/
theorem reconnect_unnamed_creates_second_cex :
    stC5.ip_to_id.lookup 7 = some 0 ∧
    (stC5.sessions.lookup 0).map UserSession.status
      = some UserStatus.Disconnected ∧
    stC5.sessions.length = 1 ∧
    (handle_connection 7 9 5 stC5).1.sessions.length = 2 ∧
    (handle_connection 7 9 5 stC5).1.ip_to_id.lookup 7 = some 5 ∧
    (handle_connection 7 9 5 stC5).2 = [(9, ServerMessage.ConnectionAck)] := by
  decide

/-- C5 (amended: the Disconnected session must also carry a username):
a new connection from an IP whose session is exactly Disconnected and
named never creates a second session: the existing one is reused with
the new channel attached, the ip map is unchanged, the reconnect
acknowledgement carries the username and the derived index k, and the
status is recomputed from the global status and the session's own
progress (InLobby if global Lobby; Answering k if InProgress and
k < total; Finished if InProgress and k ≥ total). -/
theorem reconnect_reuses_session (s : ServerState) (ip ch fresh sid : Nat)
    (sess : UserSession) (u : String)
    (hban : ip ∉ s.banned_ips)
    (hip : s.ip_to_id.lookup ip = some sid)
    (hs : s.sessions.lookup sid = some sess)
    (hst : sess.status = UserStatus.Disconnected)
    (hu : sess.username = some u) :
    (handle_connection ip ch fresh s).1.sessions.length
      = s.sessions.length ∧
    (handle_connection ip ch fresh s).1.ip_to_id = s.ip_to_id ∧
    (handle_connection ip ch fresh s).2.head?
      = some (ch, ServerMessage.ReconnectAccepted u
          sess.current_question_index) ∧
    ∃ sess2, (handle_connection ip ch fresh s).1.sessions.lookup sid
        = some sess2 ∧
      sess2.sender = some ch ∧
      sess2.answers = sess.answers ∧
      sess2.username = sess.username ∧
      (s.status = ServerStatus.Lobby → sess2.status = UserStatus.InLobby) ∧
      (s.status = ServerStatus.InProgress →
        sess.current_question_index < s.questions.length →
        sess2.status = UserStatus.Answering sess.current_question_index) ∧
      (s.status = ServerStatus.InProgress →
        s.questions.length ≤ sess.current_question_index →
        sess2.status = UserStatus.Finished) := by
  obtain ⟨h1, h2, h3, h4⟩ := handle_connection_reconnects s ip ch fresh sid
    sess u hban hip hs hst hu
  refine ⟨by rw [h1]; exact length_mapUpdate _ _ _, h2, h4, ?_⟩
  refine ⟨{ sess with
      sender := some ch
      status := if s.status = ServerStatus.InProgress then
          (if s.questions.length ≤ sess.current_question_index then
            UserStatus.Finished
          else UserStatus.Answering sess.current_question_index)
        else UserStatus.InLobby }, ?_, rfl, rfl, rfl, ?_, ?_, ?_⟩
  · rw [h1, lookup_mapUpdate, hs]
    rfl
  · intro hl
    rw [hl]
    simp
  · intro hp hlt
    simp [hp, Nat.not_le.mpr hlt]
  · intro hp hge
    simp [hp, hge]

/-- Witness for reconnect_reuses_session: cid reconnects in stW5 while
the quiz is in progress with one of two questions answered. -/
theorem reconnect_reuses_session_witness :
    (7 ∉ stW5.banned_ips) ∧
    stW5.ip_to_id.lookup 7 = some 0 ∧
    stW5.sessions.lookup 0 = some sessW5 ∧
    sessW5.status = UserStatus.Disconnected ∧
    sessW5.username = some "cid" ∧
    ((handle_connection 7 12 99 stW5).1.sessions.length
      = stW5.sessions.length ∧
    (handle_connection 7 12 99 stW5).1.ip_to_id = stW5.ip_to_id ∧
    (handle_connection 7 12 99 stW5).2.head?
      = some (12, ServerMessage.ReconnectAccepted "cid"
          sessW5.current_question_index) ∧
    ∃ sess2, (handle_connection 7 12 99 stW5).1.sessions.lookup 0
        = some sess2 ∧
      sess2.sender = some 12 ∧
      sess2.answers = sessW5.answers ∧
      sess2.username = sessW5.username ∧
      (stW5.status = ServerStatus.Lobby →
        sess2.status = UserStatus.InLobby) ∧
      (stW5.status = ServerStatus.InProgress →
        sessW5.current_question_index < stW5.questions.length →
        sess2.status = UserStatus.Answering sessW5.current_question_index) ∧
      (stW5.status = ServerStatus.InProgress →
        stW5.questions.length ≤ sessW5.current_question_index →
        sess2.status = UserStatus.Finished)) :=
  ⟨by decide, by decide, by decide, by decide, by decide,
    reconnect_reuses_session stW5 7 12 99 0 sessW5 "cid" (by decide)
      (by decide) (by decide) (by decide) (by decide)⟩

/-!
C9.
-/

/-- C9: a successful kick does not remove the session: it stays in the
sessions map with the username and ip mappings intact; only its status
(set to Disconnected) and its outbound channel (cleared) change, and a
subsequent connection from the same IP is treated as a reconnect that
resumes the kicked session (no second session, channel reattached,
ReconnectAccepted sent). -/
theorem kick_keeps_registry (s : ServerState) (u u2 : String) (sid : Nat)
    (sess : UserSession)
    (hname : s.username_to_id.lookup u = some sid)
    (hs : s.sessions.lookup sid = some sess)
    (hu : sess.username = some u2)
    (hip : s.ip_to_id.lookup sess.ip_addr = some sid)
    (hban : sess.ip_addr ∉ s.banned_ips) :
    (cmd_kick s [u]).1 = CommandResult.Ok (some ("Kicked user: " ++ u)) ∧
    (cmd_kick s [u]).2.1.sessions.lookup sid
      = some { sess with sender := none, status := UserStatus.Disconnected } ∧
    (cmd_kick s [u]).2.1.sessions.length = s.sessions.length ∧
    (cmd_kick s [u]).2.1.username_to_id = s.username_to_id ∧
    (cmd_kick s [u]).2.1.ip_to_id = s.ip_to_id ∧
    (cmd_kick s [u]).2.1.banned_ips = s.banned_ips ∧
    (cmd_kick s [u]).2.1.status = s.status ∧
    ∀ ch fresh,
      (handle_connection sess.ip_addr ch fresh
        (cmd_kick s [u]).2.1).1.sessions.length = s.sessions.length ∧
      (handle_connection sess.ip_addr ch fresh (cmd_kick s [u]).2.1).2.head?
        = some (ch, ServerMessage.ReconnectAccepted u2
            sess.current_question_index) ∧
      ∃ sess3, (handle_connection sess.ip_addr ch fresh
          (cmd_kick s [u]).2.1).1.sessions.lookup sid = some sess3 ∧
        sess3.sender = some ch := by
  have hred : cmd_kick s [u]
      = (CommandResult.Ok (some ("Kicked user: " ++ u)),
         { s with sessions := (mapUpdate sid
             (fun se => { se with sender := none, status := UserStatus.Disconnected }) s.sessions) },
         sess.sendTo (ServerMessage.Kicked "Kicked by host")) := by
    unfold cmd_kick
    simp only [List.head?_cons, hname, hs]
  rw [hred]
  have hlook : (mapUpdate sid
      (fun se => ({ se with sender := none, status := UserStatus.Disconnected } : UserSession))
      s.sessions).lookup sid
      = some { sess with sender := none, status := UserStatus.Disconnected } := by
    rw [lookup_mapUpdate, hs]
    rfl
  refine ⟨rfl, hlook, length_mapUpdate _ _ _, rfl, rfl, rfl, rfl, ?_⟩
  intro ch fresh
  obtain ⟨r1, _, _, r4⟩ := handle_connection_reconnects
    { s with sessions := (mapUpdate sid
        (fun se => { se with sender := none, status := UserStatus.Disconnected }) s.sessions) }
    sess.ip_addr ch fresh sid
    { sess with sender := none, status := UserStatus.Disconnected } u2
    hban hip hlook rfl hu
  refine ⟨?_, r4, ?_⟩
  · rw [r1, length_mapUpdate, length_mapUpdate]
  · refine ⟨{ sess with
        sender := some ch
        status := if s.status = ServerStatus.InProgress then
            (if s.questions.length ≤ sess.current_question_index then
              UserStatus.Finished
            else UserStatus.Answering sess.current_question_index)
          else UserStatus.InLobby }, ?_, rfl⟩
    rw [r1, lookup_mapUpdate, hlook]
    rfl

/-- Witness for kick_keeps_registry: kicking bob in stW9 and letting
the same IP reconnect. -/
theorem kick_keeps_registry_witness :
    stW9.username_to_id.lookup "bob" = some 4 ∧
    stW9.sessions.lookup 4 = some sessW9 ∧
    ((cmd_kick stW9 ["bob"]).1
      = CommandResult.Ok (some ("Kicked user: " ++ "bob")) ∧
    (cmd_kick stW9 ["bob"]).2.1.sessions.lookup 4
      = some { sessW9 with sender := none, status := UserStatus.Disconnected } ∧
    (cmd_kick stW9 ["bob"]).2.1.sessions.length = stW9.sessions.length ∧
    (cmd_kick stW9 ["bob"]).2.1.username_to_id = stW9.username_to_id ∧
    (cmd_kick stW9 ["bob"]).2.1.ip_to_id = stW9.ip_to_id ∧
    (cmd_kick stW9 ["bob"]).2.1.banned_ips = stW9.banned_ips ∧
    (cmd_kick stW9 ["bob"]).2.1.status = stW9.status ∧
    ∀ ch fresh,
      (handle_connection sessW9.ip_addr ch fresh
        (cmd_kick stW9 ["bob"]).2.1).1.sessions.length
        = stW9.sessions.length ∧
      (handle_connection sessW9.ip_addr ch fresh
        (cmd_kick stW9 ["bob"]).2.1).2.head?
        = some (ch, ServerMessage.ReconnectAccepted "bob"
            sessW9.current_question_index) ∧
      ∃ sess3, (handle_connection sessW9.ip_addr ch fresh
          (cmd_kick stW9 ["bob"]).2.1).1.sessions.lookup 4 = some sess3 ∧
        sess3.sender = some ch) :=
  ⟨by decide, by decide,
    kick_keeps_registry stW9 "bob" "bob" 4 sessW9 (by decide) (by decide)
      (by decide) (by decide) (by decide)⟩

/-!
C2: the leaderboard.
-/

theorem optTimeLe_total (x y : Option Nat) :
    optTimeLe x y = true ∨ optTimeLe y x = true := by
  cases x <;> cases y <;> simp [optTimeLe] <;> omega

theorem optTimeLe_trans {x y z : Option Nat} (h1 : optTimeLe x y = true)
    (h2 : optTimeLe y z = true) : optTimeLe x z = true := by
  cases x <;> cases y <;> cases z <;> simp [optTimeLe] at * <;> omega

theorem lbLe_total (a b : UserSession) : lbLe a b = true ∨ lbLe b a = true := by
  unfold lbLe
  rcases Nat.lt_trichotomy (a.score.getD 0) (b.score.getD 0) with h | h | h
  · right
    simp [h]
  · rcases optTimeLe_total a.finished_at b.finished_at with h2 | h2
    · left
      simp [h, h2]
    · right
      simp [h.symm, h2]
  · left
    simp [h]

theorem lbLe_trans {a b c : UserSession} (h1 : lbLe a b = true)
    (h2 : lbLe b c = true) : lbLe a c = true := by
  unfold lbLe at *
  simp only [Bool.or_eq_true, Bool.and_eq_true, beq_iff_eq,
    decide_eq_true_eq] at *
  rcases h1 with h1 | ⟨h1a, h1b⟩ <;> rcases h2 with h2 | ⟨h2a, h2b⟩
  · left
    omega
  · left
    omega
  · left
    omega
  · right
    exact ⟨by omega, optTimeLe_trans h1b h2b⟩

/-- C2 counterexample: stC2a and stC2b hold the same session-map
content (their session lists are permutations, both legal HashMap
iteration orders) with an exact tie on score and finish time, yet the
leaderboards order the tied entries differently.  The tiebreak
therefore follows the unspecified map iteration order, not the session
creation order: in stC2b the session created second (id 1, bb) is
ranked before the one created first (id 0, aa). -/
theorem leaderboard_tiebreak_cex :
    stC2a.sessions.Perm stC2b.sessions ∧
    sessC2a.score = sessC2b.score ∧
    sessC2a.finished_at = sessC2b.finished_at ∧
    sessC2a.id = 0 ∧ sessC2b.id = 1 ∧
    (stC2a.generate_leaderboard "zz").map (fun e => e.username)
      = ["aa", "bb"] ∧
    (stC2b.generate_leaderboard "zz").map (fun e => e.username)
      = ["bb", "aa"] := by decide

/-- C2 (amended: ties beyond (score desc, finish time asc) are broken
by the session map's unspecified iteration order, not by creation
order): the leaderboard contains exactly the Finished named sessions
(as a permutation of the filter of the session map), is sorted by
score descending then finish time ascending (the non-strict lexical
order lbLe), and its ranks form the dense sequence 1..K with
K = the number of Finished named sessions. -/
theorem leaderboard_sorted_dense (s : ServerState) (u : String) :
    s.leaderboardSessions.Perm s.finishedNamed ∧
    List.Pairwise (fun a b => lbLe a b = true) s.leaderboardSessions ∧
    (s.generate_leaderboard u).map (fun e => e.rank)
      = List.range' 1 s.finishedNamed.length ∧
    (s.generate_leaderboard u).length = s.finishedNamed.length := by
  have hperm : s.leaderboardSessions.Perm s.finishedNamed :=
    List.perm_insertionSort _ _
  have hlen : s.leaderboardSessions.length = s.finishedNamed.length :=
    hperm.length_eq
  refine ⟨hperm, ?_, ?_, ?_⟩
  · exact @List.sorted_insertionSort UserSession
      (fun a b => lbLe a b = true) (fun a b => instDecidableEqBool _ _)
      ⟨lbLe_total⟩ ⟨fun a b c => lbLe_trans⟩ s.finishedNamed
  · unfold ServerState.generate_leaderboard
    rw [List.map_map]
    have h1 : ((fun e : LeaderboardEntry => e.rank) ∘
        (fun p : Nat × UserSession =>
          ({ rank := p.1 + 1, username := p.2.username.getD "",
             score := p.2.score.getD 0, total := s.questions.length,
             is_you := p.2.username == some u } : LeaderboardEntry)))
        = fun p : Nat × UserSession => p.1 + 1 := rfl
    rw [h1]
    have h2 : (fun p : Nat × UserSession => p.1 + 1)
        = (fun n : Nat => n + 1) ∘ Prod.fst := rfl
    rw [h2, ← List.map_map, List.enum_map_fst, List.range'_eq_map_range,
      hlen]
    apply List.map_congr_left
    intro i _
    omega
  · unfold ServerState.generate_leaderboard
    rw [List.length_map, List.enum_length]
    exact hlen

/-!
C4: join validation.
-/

/-- C4 counterexample: in stC4 the name abc (trimmed length 3, within
range) is bound to session 0 itself — not to a different session — yet
a Join from session 0 with abc is rejected ("Username is already
taken") and nothing is mutated; the code checks "bound to any
session", not "bound to a different session", refuting the claimed
iff. -/
theorem rejoin_own_username_cex :
    stC4.username_to_id.lookup "abc" = some 0 ∧
    (stC4.sessions.lookup 0).map UserSession.username = some (some "abc") ∧
    (strTrim "abc").length = 3 ∧
    handle_join 0 "abc" stC4
      = (stC4, [(9, ServerMessage.JoinRejected "Username is already taken")])
    := by decide

/-- C4 (amended: Join succeeds iff the trimmed length is in [3,16] and
the trimmed username is bound to no session at all, the joining
session included): on success the trimmed name is bound to the session
and JoinAccepted is the first reply; otherwise the state is unchanged
and exactly one JoinRejected with the specific reason is sent. -/
theorem join_validation (s : ServerState) (sid : Nat) (raw : String)
    (sess : UserSession) (ch : Nat)
    (hs : s.sessions.lookup sid = some sess)
    (hch : sess.sender = some ch) :
    (3 ≤ (strTrim raw).length → (strTrim raw).length ≤ 16 →
      s.username_to_id.lookup (strTrim raw) = none →
      ∃ sess1, (handle_join sid raw s).1.sessions.lookup sid = some sess1 ∧
        sess1.username = some (strTrim raw) ∧
        (handle_join sid raw s).1.username_to_id.lookup (strTrim raw)
          = some sid ∧
        (handle_join sid raw s).2.head?
          = some (ch, ServerMessage.JoinAccepted (strTrim raw))) ∧
    ((strTrim raw).length < 3 →
      handle_join sid raw s = (s, [(ch, ServerMessage.JoinRejected
        "Username must be at least 3 characters")])) ∧
    (16 < (strTrim raw).length →
      handle_join sid raw s = (s, [(ch, ServerMessage.JoinRejected
        "Username must be at most 16 characters")])) ∧
    (3 ≤ (strTrim raw).length → (strTrim raw).length ≤ 16 →
      (s.username_to_id.lookup (strTrim raw)).isSome →
      handle_join sid raw s = (s, [(ch, ServerMessage.JoinRejected
        "Username is already taken")])) := by
  have hidem : strTrim (strTrim raw) = strTrim raw := strTrim_idem raw
  refine ⟨?_, ?_, ?_, ?_⟩
  · intro h3 h16 hfree
    have hval : validate_username (strTrim raw) = Except.ok () := by
      unfold validate_username
      rw [hidem]
      rw [if_neg (by omega), if_neg (by omega)]
    have htaken : s.is_username_taken (strTrim raw) = false := by
      unfold ServerState.is_username_taken
      rw [hfree]
      rfl
    have hbind : (assocInsert (strTrim raw) sid
        s.username_to_id).lookup (strTrim raw) = some sid := by
      unfold assocInsert
      rw [if_neg (by simp [hfree])]
      exact lookup_append_of_none _ _ hfree
    simp only [handle_join, hval, htaken, Bool.false_eq_true, if_false, hs]
    by_cases hst : s.status = ServerStatus.InProgress
    · rw [if_pos hst]
      refine ⟨{ sess with
          username := some (strTrim raw)
          answers := List.replicate s.questions.length none
          status := UserStatus.Answering 0 }, ?_, rfl, ?_, ?_⟩
      · simp only [add_to_history_sessions]
        rw [lookup_mapUpdate, hs]
        rfl
      · simp only [add_to_history_username_to_id]
        exact hbind
      · simp only [UserSession.sendTo, UserSession.init_answers, hch]
        rfl
    · rw [if_neg hst]
      refine ⟨{ sess with
          username := some (strTrim raw)
          status := UserStatus.InLobby }, ?_, rfl, ?_, ?_⟩
      · simp only [add_to_history_sessions]
        rw [lookup_mapUpdate, hs]
        rfl
      · simp only [add_to_history_username_to_id]
        exact hbind
      · simp only [UserSession.sendTo, hch]
        rfl
  · intro h3
    have hval : validate_username (strTrim raw)
        = Except.error "Username must be at least 3 characters" := by
      unfold validate_username
      rw [hidem]
      rw [if_pos h3]
    simp only [handle_join, hval, hs]
    simp only [UserSession.sendTo, hch]
  · intro h16
    have hval : validate_username (strTrim raw)
        = Except.error "Username must be at most 16 characters" := by
      unfold validate_username
      rw [hidem]
      rw [if_neg (by omega), if_pos h16]
    simp only [handle_join, hval, hs]
    simp only [UserSession.sendTo, hch]
  · intro h3 h16 htaken
    have hval : validate_username (strTrim raw) = Except.ok () := by
      unfold validate_username
      rw [hidem]
      rw [if_neg (by omega), if_neg (by omega)]
    have htk : s.is_username_taken (strTrim raw) = true := htaken
    simp only [handle_join, hval, htk, if_true, hs]
    simp only [UserSession.sendTo, hch]

/-- Witness: the unnamed session 3 of stW4 joins with " bob " (trims
to bob, length 3, unbound); the name is bound and JoinAccepted sent. -/
theorem join_validation_witness :
    stW4.sessions.lookup 3 = some sessW4 ∧
    sessW4.sender = some 11 ∧
    (3 ≤ (strTrim " bob ").length ∧ (strTrim " bob ").length ≤ 16 ∧
      stW4.username_to_id.lookup (strTrim " bob ") = none) ∧
    (∃ sess1, (handle_join 3 " bob " stW4).1.sessions.lookup 3
        = some sess1 ∧
      sess1.username = some (strTrim " bob ") ∧
      (handle_join 3 " bob " stW4).1.username_to_id.lookup
        (strTrim " bob ") = some 3 ∧
      (handle_join 3 " bob " stW4).2.head?
        = some (11, ServerMessage.JoinAccepted (strTrim " bob "))) :=
  ⟨by decide, by decide, ⟨by decide, by decide, by decide⟩,
    (join_validation stW4 3 " bob " sessW4 11 (by decide) (by decide)).1
      (by decide) (by decide) (by decide)⟩

/-!
C7: the global status only advances.
-/

theorem handle_connection_status (ip ch fresh : Nat) (s : ServerState) :
    (handle_connection ip ch fresh s).1.status = s.status := by
  unfold handle_connection
  split
  · rfl
  · cases hinfo : reconnectInfo s ip with
    | none => rfl
    | some info =>
      obtain ⟨a, b, c⟩ := info
      simp [add_to_history_status]

theorem handle_join_status (sid : Nat) (raw : String) (s : ServerState) :
    (handle_join sid raw s).1.status = s.status := by
  simp only [handle_join]
  cases hval : validate_username (strTrim raw) with
  | error reason =>
    cases hlook : s.sessions.lookup sid <;> rfl
  | ok a =>
    by_cases htaken : s.is_username_taken (strTrim raw) = true
    · rw [if_pos htaken]
      cases hlook : s.sessions.lookup sid <;> rfl
    · rw [if_neg htaken]
      cases hlook : s.sessions.lookup sid with
      | none => rfl
      | some sess =>
        by_cases hst : s.status = ServerStatus.InProgress <;>
          simp [hst, add_to_history_status]

theorem handle_answer_status (sid qi a now : Nat) (s : ServerState) :
    (handle_answer sid qi a now s).1.status = s.status := by
  simp only [handle_answer]
  cases hlook : s.sessions.lookup sid with
  | none => rfl
  | some sess =>
    by_cases hqi : qi ≠ sess.current_question_index
    · simp [hqi]
    · simp only [if_neg hqi]
      by_cases hlt : qi < sess.answers.length <;>
        by_cases hfin : s.questions.length ≤ qi + 1 <;>
        cases husr : sess.username <;>
        simp [hlt, hfin, husr, add_to_history_status,
          record_live_answer_status]

theorem mark_disconnected_status (sid : Nat) (s : ServerState) :
    (mark_disconnected sid s).status = s.status := by
  simp only [mark_disconnected]
  cases hlook : s.sessions.lookup sid with
  | none => rfl
  | some sess =>
    by_cases hf : sess.status = UserStatus.Finished
    · simp [hf]
    · simp only [if_neg hf]
      cases hu : sess.username <;> simp [hf, add_to_history_status]

theorem cmd_quit_status (s : ServerState) :
    (cmd_quit s).2.1.status = s.status := rfl

theorem cmd_kick_status (s : ServerState) (args : List String) :
    (cmd_kick s args).2.1.status = s.status := by
  unfold cmd_kick
  repeat' split
  all_goals rfl

theorem cmd_ban_status (s : ServerState) (args : List String) :
    (cmd_ban s args).2.1.status = s.status := by
  simp only [cmd_ban]
  repeat' split
  all_goals rfl

theorem cmd_unban_status (s : ServerState) (args : List String) :
    (cmd_unban s args).2.1.status = s.status := by
  unfold cmd_unban
  repeat' split
  all_goals rfl

theorem cmd_view_status (s : ServerState) (args : List String) :
    (cmd_view s args).2.1.status = s.status := by
  unfold cmd_view
  repeat' split
  all_goals rfl

theorem cmd_list_status (s : ServerState) (args : List String) :
    (cmd_list s args).2.1.status = s.status := by
  simp only [cmd_list]
  repeat' split
  all_goals rfl

theorem cmd_help_status (s : ServerState) :
    (cmd_help s).2.1.status = s.status := rfl

theorem cmd_start_rank (s : ServerState) :
    statusRank s.status ≤ statusRank (cmd_start s).2.1.status := by
  unfold cmd_start
  by_cases h1 : s.status ≠ ServerStatus.Lobby
  · rw [if_pos h1]
  · rw [if_neg h1]
    have h1b : s.status = ServerStatus.Lobby := not_not.mp h1
    by_cases h2 : s.named_user_count = 0
    · rw [if_pos h2]
    · rw [if_neg h2, h1b]
      show statusRank ServerStatus.Lobby ≤ statusRank ServerStatus.InProgress
      decide

theorem cmd_stop_rank (s : ServerState) :
    statusRank s.status ≤ statusRank (cmd_stop s).2.1.status := by
  unfold cmd_stop
  by_cases h1 : s.status ≠ ServerStatus.InProgress
  · rw [if_pos h1]
  · rw [if_neg h1]
    have h1b : s.status = ServerStatus.InProgress := not_not.mp h1
    rw [h1b]
    show statusRank ServerStatus.InProgress ≤ statusRank ServerStatus.Finished
    decide

theorem execute_command_rank (s : ServerState) (input : String) :
    statusRank s.status ≤ statusRank (execute_command s input).2.1.status := by
  simp only [execute_command]
  repeat' split
  all_goals first
    | exact Nat.le_refl _
    | exact cmd_start_rank s
    | exact cmd_stop_rank s
    | rw [cmd_quit_status]
    | rw [cmd_kick_status]
    | rw [cmd_ban_status]
    | rw [cmd_unban_status]
    | rw [cmd_view_status]
    | rw [cmd_list_status]

theorem step_rank (s : ServerState) (op : Op) :
    statusRank s.status ≤ statusRank (step s op).status := by
  cases op with
  | connect ip ch fresh =>
    simp only [step]
    rw [handle_connection_status]
  | join sid u =>
    simp only [step]
    rw [handle_join_status]
  | answer sid qi a now =>
    simp only [step]
    rw [handle_answer_status]
  | drop sid =>
    simp only [step]
    rw [mark_disconnected_status]
  | host input =>
    exact execute_command_rank s input

/-- C7: over every sequence of operations (connection events, Join,
SubmitAnswer, connection drops, any host command line) the global
status only advances along Lobby → InProgress → Finished and never
regresses: its rank is monotone along every run. -/
theorem status_monotone (s : ServerState) (ops : List Op) :
    statusRank s.status ≤ statusRank ((ops.foldl step s).status) := by
  induction ops generalizing s with
  | nil => exact Nat.le_refl _
  | cons op rest ih =>
    exact Nat.le_trans (step_rank s op) (ih (step s op))

/-!
C6: the stop command.
-/

theorem stopUpdated_keys (qs : List Question)
    (l : List (Nat × UserSession)) :
    (stopUpdated qs l).map Prod.fst = l.map Prod.fst := by
  unfold stopUpdated
  rw [List.map_map]
  apply List.map_congr_left
  intro p _
  by_cases h : p.2.is_finished <;> simp [h]

/-- The leaderboard generated for two different requesting usernames
differs only in the is-requester flag. -/
theorem generate_leaderboard_strip (s : ServerState) (u1 u2 : String) :
    (s.generate_leaderboard u1).map stripYou
      = (s.generate_leaderboard u2).map stripYou := by
  unfold ServerState.generate_leaderboard
  rw [List.map_map, List.map_map]
  rfl

/-- C6 counterexample: stC6 is InProgress and holds one Finished
session whose outbound channel is gone; stop still flips the status
but emits no message at all, so this Finished session does not receive
its results, contradicting the claim that every Finished session does. -/
theorem stop_misses_channelless_finished_cex :
    stC6.status = ServerStatus.InProgress ∧
    (stC6.sessions.lookup 0).map UserSession.status
      = some UserStatus.Finished ∧
    (stC6.sessions.lookup 0).map UserSession.sender = some none ∧
    (cmd_stop stC6).2.1.status = ServerStatus.Finished ∧
    (cmd_stop stC6).2.2 = [] := by decide

/-- C6 (amended: results are delivered to every Finished session that
still has an attached outbound channel; one without a channel receives
nothing): stop outside InProgress returns the not-in-progress error
and changes nothing; stop while InProgress moves the status to
Finished exactly once (a second stop only hits the error and changes
nothing), sends every channel-holding Finished session QuizResults
with a leaderboard recomputed fresh from the final state — the same
ranking for all recipients up to the is-requester flag — and sends
every other connected session HostEndedQuiz. -/
theorem stop_behaviour (s : ServerState)
    (hnodup : (s.sessions.map Prod.fst).Nodup) :
    (s.status ≠ ServerStatus.InProgress →
      cmd_stop s = (CommandResult.Error "Quiz is not in progress.", s, [])) ∧
    (s.status = ServerStatus.InProgress →
      (cmd_stop s).2.1.status = ServerStatus.Finished ∧
      (cmd_stop (cmd_stop s).2.1).1
        = CommandResult.Error "Quiz is not in progress." ∧
      (cmd_stop (cmd_stop s).2.1).2.1 = (cmd_stop s).2.1 ∧
      (cmd_stop (cmd_stop s).2.1).2.2 = [] ∧
      (∀ id sess ch, (id, sess) ∈ s.sessions → sess.is_finished = true →
        sess.sender = some ch →
        (ch, ServerMessage.QuizResults (sess.calculate_score s.questions)
          s.questions.length (answerResults sess.answers s.questions)
          ((cmd_stop s).2.1.generate_leaderboard (sess.username.getD "")))
          ∈ (cmd_stop s).2.2) ∧
      (∀ id sess ch, (id, sess) ∈ s.sessions → sess.is_finished = false →
        sess.is_connected = true → sess.sender = some ch →
        (ch, ServerMessage.HostEndedQuiz) ∈ (cmd_stop s).2.2) ∧
      (∀ u1 u2, ((cmd_stop s).2.1.generate_leaderboard u1).map stripYou
        = ((cmd_stop s).2.1.generate_leaderboard u2).map stripYou)) := by
  have hpart1 : ∀ s2 : ServerState, s2.status ≠ ServerStatus.InProgress →
      cmd_stop s2 = (CommandResult.Error "Quiz is not in progress.", s2, []) := by
    intro s2 h
    unfold cmd_stop
    rw [if_pos h]
  refine ⟨hpart1 s, ?_⟩
  intro h
  have hne : ¬(s.status ≠ ServerStatus.InProgress) := by simp [h]
  have hstat : (cmd_stop s).2.1.status = ServerStatus.Finished := by
    simp only [cmd_stop, if_neg hne]
  have hne2 : (cmd_stop s).2.1.status ≠ ServerStatus.InProgress := by
    rw [hstat]
    decide
  have hkeys : ((stopUpdated s.questions s.sessions).map Prod.fst).Nodup := by
    rw [stopUpdated_keys]
    exact hnodup
  refine ⟨hstat, ?_, ?_, ?_, ?_, ?_, ?_⟩
  · rw [hpart1 _ hne2]
  · rw [hpart1 _ hne2]
  · rw [hpart1 _ hne2]
  · intro id sess ch hmem hfin hch
    have hm1 : (id, { sess with
        score := some (sess.calculate_score s.questions) })
        ∈ stopUpdated s.questions s.sessions := by
      unfold stopUpdated
      refine List.mem_map.mpr ⟨(id, sess), hmem, ?_⟩
      simp [hfin]
    have hlook1 : (stopUpdated s.questions s.sessions).lookup id
        = some { sess with
            score := some (sess.calculate_score s.questions) } :=
      lookup_of_mem_nodup hkeys hm1
    have hr : (id, sess.calculate_score s.questions, sess.username.getD "",
        answerResults sess.answers s.questions)
        ∈ stopResults s.questions (stopUpdated s.questions s.sessions) := by
      unfold stopResults
      refine List.mem_filterMap.mpr
        ⟨(id, { sess with
            score := some (sess.calculate_score s.questions) }), hm1, ?_⟩
      have hfin2 : ({ sess with
          score := some (sess.calculate_score s.questions) }
            : UserSession).is_finished = true := hfin
      simp only [hfin2, if_true]
      rfl
    simp only [cmd_stop, if_neg hne]
    refine List.mem_append.mpr (Or.inl ?_)
    refine List.mem_flatMap.mpr ⟨_, hr, ?_⟩
    simp only [hlook1]
    simp only [UserSession.sendTo, hch]
    exact List.mem_singleton.mpr rfl
  · intro id sess ch hmem hnf hconn hch
    have hid : id ∈ stopHostEnded s.sessions := by
      unfold stopHostEnded
      refine List.mem_filterMap.mpr ⟨(id, sess), hmem, ?_⟩
      simp [hnf, hconn]
    have hm1 : (id, sess) ∈ stopUpdated s.questions s.sessions := by
      unfold stopUpdated
      refine List.mem_map.mpr ⟨(id, sess), hmem, ?_⟩
      simp [hnf]
    have hlook1 : (stopUpdated s.questions s.sessions).lookup id
        = some sess :=
      lookup_of_mem_nodup hkeys hm1
    simp only [cmd_stop, if_neg hne]
    refine List.mem_append.mpr (Or.inr ?_)
    refine List.mem_flatMap.mpr ⟨id, hid, ?_⟩
    simp only [hlook1]
    simp only [UserSession.sendTo, hch]
    exact List.mem_singleton.mpr rfl
  · intro u1 u2
    exact generate_leaderboard_strip _ u1 u2

/-- Witness for stop_behaviour at stW6: a quiz in progress with one
Finished and one still-answering session, both connected. -/
theorem stop_behaviour_witness :
    (stW6.sessions.map Prod.fst).Nodup ∧
    stW6.status = ServerStatus.InProgress ∧
    ((cmd_stop stW6).2.1.status = ServerStatus.Finished ∧
      (cmd_stop (cmd_stop stW6).2.1).1
        = CommandResult.Error "Quiz is not in progress." ∧
      (cmd_stop (cmd_stop stW6).2.1).2.1 = (cmd_stop stW6).2.1 ∧
      (cmd_stop (cmd_stop stW6).2.1).2.2 = [] ∧
      (∀ id sess ch, (id, sess) ∈ stW6.sessions → sess.is_finished = true →
        sess.sender = some ch →
        (ch, ServerMessage.QuizResults
          (sess.calculate_score stW6.questions) stW6.questions.length
          (answerResults sess.answers stW6.questions)
          ((cmd_stop stW6).2.1.generate_leaderboard (sess.username.getD "")))
          ∈ (cmd_stop stW6).2.2) ∧
      (∀ id sess ch, (id, sess) ∈ stW6.sessions → sess.is_finished = false →
        sess.is_connected = true → sess.sender = some ch →
        (ch, ServerMessage.HostEndedQuiz) ∈ (cmd_stop stW6).2.2) ∧
      (∀ u1 u2, ((cmd_stop stW6).2.1.generate_leaderboard u1).map stripYou
        = ((cmd_stop stW6).2.1.generate_leaderboard u2).map stripYou)) :=
  ⟨by decide, by decide, (stop_behaviour stW6 (by decide)).2 (by decide)⟩

end RustQuiz
